import Mathlib

/-!
Verification development for the HTTPS signature-verification server
(`src/practice/https/src/bin/server.rs`).

The server's core is `recover_address_from_signature`, which

1. hashes `format!("\x19Ethereum Signed Message:\n{}{:?}", message.len(), message)`
   with Keccak-256 (`ethers::utils::keccak256`),
2. parses the signature string into `(r, s, v)` (`ethers` `Signature::from_str`,
   wrapped with the anyhow context `"Failed to parse signature"`), and
3. recovers the signer's address from the hash and the signature
   (`Signature::recover`, wrapped with the anyhow context
   `"Failed to recover address"`).

Bytes are modelled as `Nat` (values below 256 everywhere they arise), byte
sequences as `List Nat`, and Rust strings as Lean `String`.  Fallible Rust
code returning `anyhow::Result` is modelled with `Except`.  The third-party
functions the server calls (`keccak256`, hex decoding, the secp256k1
recovery of the `ethers`/`k256` stack) are embedded as executable Lean
functions below.
-/

/-! ### Keccak-256 (model of `ethers::utils::keccak256`)

Keccak-256: rate 136 bytes, capacity 512 bits, the legacy `0x01` padding
domain byte (not the NIST SHA-3 `0x06`).  The state is a flat list of 25
lanes of 64 bits, lane `(x, y)` stored at index `x + 5 * y`. -/

/-- All-ones 64-bit mask. -/
def mask64 : Nat := 2 ^ 64 - 1

/-- Left-rotation of a 64-bit lane by `n` bits. -/
def rotl64 (w n : Nat) : Nat :=
  ((w <<< (n % 64)) ||| (w >>> (64 - n % 64))) &&& mask64

/-- Lane `(x, y)` of the state (index `x + 5 * y`). -/
def laneGet (st : List Nat) (x y : Nat) : Nat :=
  st.getD (x % 5 + 5 * (y % 5)) 0

/-- Keccak theta step: column parities. -/
def thetaC (st : List Nat) : List Nat :=
  (List.range 5).map (fun x =>
    laneGet st x 0 ^^^ laneGet st x 1 ^^^ laneGet st x 2 ^^^ laneGet st x 3 ^^^ laneGet st x 4)

/-- Keccak theta step: per-column adjustment. -/
def thetaD (c : List Nat) : List Nat :=
  (List.range 5).map (fun x => c.getD ((x + 4) % 5) 0 ^^^ rotl64 (c.getD ((x + 1) % 5) 0) 1)

/-- Keccak theta step. -/
def theta (st : List Nat) : List Nat :=
  let d := thetaD (thetaC st)
  (List.range 25).map (fun i => st.getD i 0 ^^^ d.getD (i % 5) 0)

/-- The lane visited at step `t` of the rho/pi generating walk of FIPS 202:
start at `(1, 0)` and step `(x, y) ↦ (y, (2x + 3y) % 5)`. -/
def rhoXY : Nat → Nat × Nat
  | 0 => (1, 0)
  | t + 1 =>
    let p := rhoXY t
    (p.2, (2 * p.1 + 3 * p.2) % 5)

/-- Rho rotation offsets, indexed by `x + 5 * y`: lane `(0, 0)` rotates by
`0`, and the lane visited at walk step `t` rotates by the triangular
number `(t + 1)(t + 2) / 2` mod 64. -/
def rhoTable : List Nat :=
  (List.range 25).map (fun i =>
    match (List.range 24).find? (fun t => (rhoXY t).1 + 5 * (rhoXY t).2 = i) with
    | some t => (t + 1) * (t + 2) / 2 % 64
    | none => 0)

/-- Combined rho-pi step: destination lane `(x', y')` takes the rotated
source lane `(x, y)` with `y = x'` and `x = (x' + 3 * y') % 5`. -/
def rhoPi (st : List Nat) : List Nat :=
  (List.range 25).map (fun j =>
    let i := (j % 5 + 3 * (j / 5)) % 5 + 5 * (j % 5)
    rotl64 (st.getD i 0) (rhoTable.getD i 0))

/-- Keccak chi step. -/
def chi (st : List Nat) : List Nat :=
  (List.range 25).map (fun j =>
    let x := j % 5
    let y := j / 5
    st.getD j 0 ^^^ ((st.getD ((x + 1) % 5 + 5 * y) 0 ^^^ mask64) &&& st.getD ((x + 2) % 5 + 5 * y) 0))

/-- Keccak round constants for the 24 rounds of Keccak-f[1600]. -/
def keccakRC : List Nat :=
  [0x0000000000000001, 0x0000000000008082, 0x800000000000808a, 0x8000000080008000,
   0x000000000000808b, 0x0000000080000001, 0x8000000080008081, 0x8000000000008009,
   0x000000000000008a, 0x0000000000000088, 0x0000000080008009, 0x000000008000000a,
   0x000000008000808b, 0x800000000000008b, 0x8000000000008089, 0x8000000000008003,
   0x8000000000008002, 0x8000000000000080, 0x000000000000800a, 0x800000008000000a,
   0x8000000080008081, 0x8000000000008080, 0x0000000080000001, 0x8000000080008008]

/-- Keccak iota step: xor the round constant into lane `(0, 0)`. -/
def iota (rc : Nat) (st : List Nat) : List Nat :=
  (List.range 25).map (fun j => if j = 0 then st.getD 0 0 ^^^ rc else st.getD j 0)

/-- One Keccak-f round. -/
def keccakRound (st : List Nat) (rc : Nat) : List Nat :=
  iota rc (chi (rhoPi (theta st)))

/-- The Keccak-f[1600] permutation (24 rounds). -/
def keccakF (st : List Nat) : List Nat :=
  keccakRC.foldl keccakRound st

/-- Little-endian 64-bit lane packed from eight bytes of `block` starting
at byte offset `8 * l`. -/
def blockLane (block : List Nat) (l : Nat) : Nat :=
  (List.range 8).foldr (fun k acc => block.getD (8 * l + k) 0 + 256 * acc) 0

/-- Xor a 136-byte rate block into the first 17 lanes of the state. -/
def xorBlock (st block : List Nat) : List Nat :=
  (List.range 25).map (fun j => if j < 17 then st.getD j 0 ^^^ blockLane block j else st.getD j 0)

/-- Absorb `blocks` rate blocks of 136 bytes each from `bytes`. -/
def absorbBlocks : Nat → List Nat → List Nat → List Nat
  | 0, st, _ => st
  | blocks + 1, st, bytes => absorbBlocks blocks (keccakF (xorBlock st (bytes.take 136))) (bytes.drop 136)

/-- Keccak `pad10*1` padding with the legacy `0x01` domain byte, for a
message of `len` bytes and rate 136. -/
def keccakPad (len : Nat) : List Nat :=
  let padLen := 136 - len % 136
  if padLen = 1 then [0x81] else 0x01 :: (List.replicate (padLen - 2) 0 ++ [0x80])

/-- The eight little-endian bytes of a 64-bit lane. -/
def lane64Bytes (w : Nat) : List Nat :=
  [w % 256, w / 256 % 256, w / 256 ^ 2 % 256, w / 256 ^ 3 % 256,
   w / 256 ^ 4 % 256, w / 256 ^ 5 % 256, w / 256 ^ 6 % 256, w / 256 ^ 7 % 256]

/-- The 32-byte Keccak-256 digest read off the first four lanes. -/
def keccakDigest (st : List Nat) : List Nat :=
  lane64Bytes (st.getD 0 0) ++ lane64Bytes (st.getD 1 0) ++
    lane64Bytes (st.getD 2 0) ++ lane64Bytes (st.getD 3 0)

/-- Keccak-256 of a byte sequence: model of `ethers::utils::keccak256`. -/
def keccak256 (msg : List Nat) : List Nat :=
  let padded := msg ++ keccakPad msg.length
  keccakDigest (absorbBlocks (padded.length / 136) (List.replicate 25 0) padded)

/-! ### Rust text rendering used by the preimage `format!`

`format!("\x19Ethereum Signed Message:\n{}{:?}", message.len(), message)`
renders the length with `Display` for `usize` (plain decimal digits) and the
payload with `Debug` for `&[u8]`, which is `[b0, b1, ...]`: decimal byte
values separated by `", "` inside square brackets. -/

/-- Decimal digits (most significant first) of `n`; fuel-driven so that the
kernel can evaluate it.  `natDecDigits` supplies sufficient fuel. -/
def natDecDigitsAux : Nat → Nat → List Nat
  | 0, _ => []
  | fuel + 1, n => if n < 10 then [n] else natDecDigitsAux fuel (n / 10) ++ [n % 10]

/-- Decimal digits of `n`, most significant first; `natDecDigits 0 = [0]`. -/
def natDecDigits (n : Nat) : List Nat :=
  natDecDigitsAux (n + 1) n

/-- The ASCII character of a decimal digit. -/
def digitChar (d : Nat) : Char :=
  Char.ofNat (48 + d)

/-- Decimal rendering of a natural number: model of Rust's `Display` for
`usize` as used by the `{}` placeholder. -/
def natDecimalRepr (n : Nat) : String :=
  String.mk ((natDecDigits n).map digitChar)

/-- Comma-space separated decimal renderings of the bytes: the interior of
Rust's `Debug` output for `&[u8]`. -/
def sliceDebugGo : List Nat → String
  | [] => ""
  | [b] => natDecimalRepr b
  | b :: rest => natDecimalRepr b ++ ", " ++ sliceDebugGo rest

/-- Model of Rust's `Debug` (`{:?}`) rendering of a `&[u8]` slice, for
example `"[104, 101, 108, 108, 111]"`. -/
def sliceDebug (msg : List Nat) : String :=
  "[" ++ sliceDebugGo msg ++ "]"

/-- The string the server feeds to `keccak256`: translation of the
`format!` call at the top of `recover_address_from_signature`. -/
def preimageString (msg : List Nat) : String :=
  "\x19Ethereum Signed Message:\n" ++ natDecimalRepr msg.length ++ sliceDebug msg

/-! ### UTF-8

`keccak256` consumes the UTF-8 bytes of the formatted `String`; every
character produced by the format above is ASCII, which the bridging lemmas
below make precise. -/

/-- UTF-8 encoding of a single character, by code point. -/
def charUtf8 (c : Char) : List Nat :=
  let n := c.toNat
  if n < 0x80 then [n]
  else if n < 0x800 then [0xC0 + n / 64, 0x80 + n % 64]
  else if n < 0x10000 then [0xE0 + n / 4096, 0x80 + n / 64 % 64, 0x80 + n % 64]
  else [0xF0 + n / 262144, 0x80 + n / 4096 % 64, 0x80 + n / 64 % 64, 0x80 + n % 64]

/-- UTF-8 bytes of a string. -/
def strUtf8 (s : String) : List Nat :=
  (s.data.map charUtf8).flatten

/-- The signing hash computed by the server: Keccak-256 of the UTF-8 bytes
of the formatted preimage string. -/
def signingHash (msg : List Nat) : List Nat :=
  keccak256 (strUtf8 (preimageString msg))

/-! ### secp256k1 public-key recovery (model of `ethers`/`k256`)

`Signature::recover` normalizes `v` to a recovery id, rebuilds the nonce
point `R` from `r` and the recovery id, computes
`Q = r⁻¹ · (s · R - z · G)`, and derives the address as the low 20 bytes of
the Keccak-256 hash of the uncompressed public key.  Scalars are plain
naturals reduced modulo the relevant prime. -/

/-- The secp256k1 base-field prime. -/
def secpP : Nat := 2 ^ 256 - 2 ^ 32 - 977

/-- The secp256k1 group order. -/
def secpN : Nat := 0xfffffffffffffffffffffffffffffffebaaedce6af48a03bbfd25e8cd0364141

/-- x-coordinate of the secp256k1 base point. -/
def secpGx : Nat := 0x79be667ef9dcbbac55a06295ce870b07029bfcdb2dce28d959f2815b16f81798

/-- y-coordinate of the secp256k1 base point. -/
def secpGy : Nat := 0x483ada7726a3c4655da4fbfc0e1108a8fd17b448a68554199c47d08ffb10d4b8

/-- Modular subtraction with both arguments first reduced mod `m`. -/
def subMod (a b m : Nat) : Nat :=
  (a % m + (m - b % m)) % m

/-- Fuel-driven square-and-multiply modular exponentiation, so that the
kernel can evaluate it on 256-bit arguments. -/
def powModAux : Nat → Nat → Nat → Nat → Nat
  | 0, _, _, m => 1 % m
  | fuel + 1, b, e, m =>
    if e = 0 then 1 % m
    else
      let h := powModAux fuel (b * b % m) (e / 2) m
      if e % 2 = 1 then b % m * h % m else h

/-- `b ^ e mod m` for exponents below `2 ^ 257`. -/
def powMod (b e m : Nat) : Nat :=
  powModAux 257 b e m

/-- Modular inverse by Fermat's little theorem (`m` prime in all uses). -/
def invMod (a m : Nat) : Nat :=
  powMod a (m - 2) m

/-- A point of the secp256k1 curve in affine coordinates, or the point at
infinity. -/
inductive ECPoint where
  | infinity : ECPoint
  | affine (x y : Nat) : ECPoint
deriving DecidableEq

/-- Affine secp256k1 point addition (curve `y² = x³ + 7`). -/
def ecAdd (p q : ECPoint) : ECPoint :=
  match p, q with
  | .infinity, q => q
  | p, .infinity => p
  | .affine x1 y1, .affine x2 y2 =>
    if x1 % secpP = x2 % secpP then
      if (y1 + y2) % secpP = 0 then .infinity
      else
        let l := 3 * x1 * x1 % secpP * invMod (2 * y1 % secpP) secpP % secpP
        let x3 := subMod (l * l) (x1 + x2) secpP
        .affine x3 (subMod (l * subMod x1 x3 secpP) y1 secpP)
    else
      let l := subMod y2 y1 secpP * invMod (subMod x2 x1 secpP) secpP % secpP
      let x3 := subMod (l * l) (x1 + x2) secpP
      .affine x3 (subMod (l * subMod x1 x3 secpP) y1 secpP)

/-- Fuel-driven double-and-add scalar multiplication. -/
def ecMulAux : Nat → Nat → ECPoint → ECPoint
  | 0, _, _ => .infinity
  | fuel + 1, k, p =>
    if k = 0 then .infinity
    else
      let r := ecMulAux fuel (k / 2) (ecAdd p p)
      if k % 2 = 1 then ecAdd p r else r

/-- `k · p` for scalars below `2 ^ 257`. -/
def ecMul (k : Nat) (p : ECPoint) : ECPoint :=
  ecMulAux 257 k p

/-- Square root modulo `secpP` (valid since `secpP % 4 = 3`); the result
only squares back to the argument when the argument is a residue. -/
def sqrtModP (a : Nat) : Nat :=
  powMod a ((secpP + 1) / 4) secpP

/-- Decompress the x-coordinate `x` into a curve point whose y-coordinate
has the given parity, when such a point exists. -/
def liftX (x parity : Nat) : Option ECPoint :=
  let alpha := (x * x % secpP * x + 7) % secpP
  let beta := sqrtModP alpha
  if beta * beta % secpP = alpha then
    some (.affine x (if beta % 2 = parity % 2 then beta else (secpP - beta) % secpP))
  else none

/-- Core secp256k1 public-key recovery for prehash `z`, signature scalars
`(r, s)` and recovery id `recid`: model of `k256`'s
`VerifyingKey::recover_from_prehash`, including the `r, s ∈ [1, n-1]`
checks its signature constructor performs. -/
def ecRecoverKey (z r s recid : Nat) : Option (Nat × Nat) :=
  if 3 < recid then none
  else if r = 0 ∨ secpN ≤ r ∨ s = 0 ∨ secpN ≤ s then none
  else
    let x := r + (if 2 ≤ recid then secpN else 0)
    if secpP ≤ x then none
    else
      match liftX x (recid % 2) with
      | none => none
      | some bigR =>
        let rInv := invMod r secpN
        let u1 := (secpN - z % secpN) % secpN * rInv % secpN
        let u2 := s % secpN * rInv % secpN
        match ecAdd (ecMul u1 (ECPoint.affine secpGx secpGy)) (ecMul u2 bigR) with
        | .infinity => none
        | .affine qx qy => some (qx, qy)

/-- The 32 big-endian bytes of a 256-bit number. -/
def bytesBE32 (x : Nat) : List Nat :=
  (List.range 32).map (fun i => x / 256 ^ (31 - i) % 256)

/-- Big-endian interpretation of a byte sequence. -/
def natFromBytesBE (bytes : List Nat) : Nat :=
  bytes.foldl (fun acc b => acc * 256 + b) 0

/-- Ethereum address of a public key: low 20 bytes of the Keccak-256 hash
of the 64-byte uncompressed point encoding. -/
def pubkeyAddress (pk : Nat × Nat) : List Nat :=
  (keccak256 (bytesBE32 pk.1 ++ bytesBE32 pk.2)).drop 12

/-- Model of `ethers`' `normalize_recovery_id`: `v ∈ {0, 1, 27, 28}` and
the EIP-155 values `v ≥ 35` normalize to a valid recovery id, anything
else to the invalid marker `4`. -/
def normalizeRecoveryV (v : Nat) : Nat :=
  if v = 0 then 0
  else if v = 1 then 1
  else if v = 27 then 0
  else if v = 28 then 1
  else if 35 ≤ v then (v - 1) % 2
  else 4

/-- Model of `ethers`' `Signature::recover` on a 32-byte prehash: normalize
`v`, run the curve recovery, and derive the address.  All failures surface
as the underlying library's error rendering. -/
def sigRecover (sig : Nat × Nat × Nat) (hash : List Nat) : Except String (List Nat) :=
  let recid := normalizeRecoveryV sig.2.2
  if 3 < recid then .error "invalid recovery id"
  else
    match ecRecoverKey (natFromBytesBE hash) sig.1 sig.2.1 recid with
    | none => .error "signature error"
    | some pk => .ok (pubkeyAddress pk)

/-! ### Signature parsing (model of `ethers`' `Signature::from_str`)

The string is stripped of an optional `"0x"`, hex-decoded, and converted
from exactly 65 bytes `r ‖ s ‖ v` with `r`, `s` big-endian 256-bit values
and `v` the final byte.  `v` is not validated during parsing; an
unrecognized `v` only fails later, inside recovery. -/

/-- Value of a hexadecimal digit character, if it is one. -/
def hexDigitVal (c : Char) : Option Nat :=
  let n := c.toNat
  if 48 ≤ n ∧ n ≤ 57 then some (n - 48)
  else if 97 ≤ n ∧ n ≤ 102 then some (n - 87)
  else if 65 ≤ n ∧ n ≤ 70 then some (n - 55)
  else none

/-- Pairwise hex decoding of an even-length character list. -/
def hexDecodeAux : List Char → Except String (List Nat)
  | [] => .ok []
  | [_] => .error "Odd number of digits"
  | c1 :: c2 :: rest =>
    match hexDigitVal c1, hexDigitVal c2 with
    | some h, some l => (hexDecodeAux rest).map (fun bs => (16 * h + l) :: bs)
    | _, _ => .error "Invalid character"

/-- Model of `hex::decode`: rejects odd length and non-hex characters. -/
def hexDecode (cs : List Char) : Except String (List Nat) :=
  if cs.length % 2 = 1 then .error "Odd number of digits" else hexDecodeAux cs

/-- Strip one leading `"0x"`, as `Signature::from_str` does. -/
def strip0x (cs : List Char) : List Char :=
  if cs.take 2 = ['0', 'x'] then cs.drop 2 else cs

/-- Model of `ethers`' `Signature::from_str`: hex-decode and split 65 bytes
into `(r, s, v)`.  The error value is the rendering of the underlying
`SignatureError`. -/
def sigFromStr (s : String) : Except String (Nat × Nat × Nat) :=
  match hexDecode (strip0x s.data) with
  | .error e => .error e
  | .ok bytes =>
    if bytes.length ≠ 65 then
      .error ("invalid signature length, got " ++ natDecimalRepr bytes.length ++ ", expected 65 bytes")
    else
      .ok (natFromBytesBE (bytes.take 32), natFromBytesBE ((bytes.drop 32).take 32), bytes.getD 64 0)

/-! ### The verification core (`recover_address_from_signature`)

The Rust function returns `anyhow::Result<Address>`: errors are the
underlying library error wrapped by `.context(...)` with a stage message.
`anyhow::Error` is a dynamically typed chain; what the caller can observe
of it (and all `handle_request` uses) is its rendering, so it is modelled
as the pair of the context message and the rendered underlying cause.
There is deliberately no stage tag other than the context string. -/

/-- Model of the `anyhow::Error` produced by `.context(...)`: the context
message plus the rendering of the wrapped underlying error. -/
structure AnyhowError where
  context : String
  cause : String
deriving DecidableEq

/-- Translation of `recover_address_from_signature` from `server.rs`:
hash the debug-formatted preimage, parse the signature, recover the
address, attaching the two anyhow context messages on the two failure
paths. -/
def recover_address_from_signature (message : List Nat) (signatureStr : String) :
    Except AnyhowError (List Nat) :=
  let hashedMsg := signingHash message
  match sigFromStr signatureStr with
  | .error e => .error (AnyhowError.mk "Failed to parse signature" e)
  | .ok sig =>
    match sigRecover sig hashedMsg with
    | .error e => .error (AnyhowError.mk "Failed to recover address" e)
    | .ok addr => .ok addr

/-! ### The request handler (`handle_request`)

`handle_request` reads the `X-Signature` header: if absent it answers with
a plain-text body `"Missing X-Signature header"` without touching the
verifier; if present it decodes the header bytes as UTF-8 with
`String::from_utf8(..).context("Failed to parse signature header")?` —
on invalid UTF-8 the `?` makes the whole handler return `Err`, so no
response is produced — and otherwise renders the verifier's result into
the response body. -/

/-- Is `b` a UTF-8 continuation byte? -/
def isCont (b : Nat) : Prop :=
  0x80 ≤ b ∧ b < 0xC0

instance (b : Nat) : Decidable (isCont b) := by
  unfold isCont; infer_instance

/-- Strict UTF-8 decoder (fuel-driven on the byte count): accepts exactly
the well-formed encodings, rejecting stray continuations, overlongs,
surrogates and code points above `0x10FFFF`, as Rust's
`String::from_utf8` does. -/
def utf8DecodeAux : Nat → List Nat → Option (List Char)
  | _, [] => some []
  | 0, _ :: _ => none
  | fuel + 1, b :: rest =>
    if b < 0x80 then (utf8DecodeAux fuel rest).map (fun cs => Char.ofNat b :: cs)
    else if b < 0xC2 then none
    else if b < 0xE0 then
      match rest with
      | b2 :: rest2 =>
        if isCont b2 then
          (utf8DecodeAux fuel rest2).map (fun cs => Char.ofNat ((b % 32) * 64 + b2 % 64) :: cs)
        else none
      | [] => none
    else if b < 0xF0 then
      match rest with
      | b2 :: b3 :: rest3 =>
        let lo2 := if b = 0xE0 then 0xA0 else 0x80
        let hi2 := if b = 0xED then 0x9F else 0xBF
        if lo2 ≤ b2 ∧ b2 ≤ hi2 ∧ isCont b3 then
          (utf8DecodeAux fuel rest3).map
            (fun cs => Char.ofNat ((b % 16) * 4096 + (b2 % 64) * 64 + b3 % 64) :: cs)
        else none
      | _ => none
    else if b < 0xF5 then
      match rest with
      | b2 :: b3 :: b4 :: rest4 =>
        let lo2 := if b = 0xF0 then 0x90 else 0x80
        let hi2 := if b = 0xF4 then 0x8F else 0xBF
        if lo2 ≤ b2 ∧ b2 ≤ hi2 ∧ isCont b3 ∧ isCont b4 then
          (utf8DecodeAux fuel rest4).map
            (fun cs =>
              Char.ofNat ((b % 8) * 262144 + (b2 % 64) * 4096 + (b3 % 64) * 64 + b4 % 64) :: cs)
        else none
      | _ => none
    else none

/-- Model of Rust's `String::from_utf8`. -/
def utf8Decode (bytes : List Nat) : Option String :=
  (utf8DecodeAux bytes.length bytes).map String.mk

/-- A hexadecimal digit character (lowercase letters). -/
def hexCharOf (d : Nat) : Char :=
  if d < 10 then Char.ofNat (48 + d) else Char.ofNat (87 + d)

/-- Rust `Debug` rendering of an `ethers` `Address`: `0x` plus 40 lowercase
hex digits. -/
def addrHexStr (addr : List Nat) : String :=
  "0x" ++ String.mk ((addr.map (fun b => [hexCharOf (b / 16), hexCharOf (b % 16)])).flatten)

/-- `{:?}` rendering of an `anyhow::Error`: context message, then the
`Caused by:` section with the underlying error. -/
def anyhowDebugStr (e : AnyhowError) : String :=
  e.context ++ "\n\nCaused by:\n    " ++ e.cause

/-- An HTTP response as `handle_request` builds it: the `Content-Type`
header value and the body. -/
structure HttpResponse where
  contentType : String
  body : String
deriving DecidableEq

/-- Translation of `handle_request` from `server.rs`.  The `X-Signature`
header is `none` when absent, otherwise the raw header bytes; `bodyBytes`
is the request body.  The `Response::builder()` call cannot fail for these
inputs and is modelled by the final `.ok`. -/
def handle_request (xSignature : Option (List Nat)) (bodyBytes : List Nat) :
    Except AnyhowError HttpResponse :=
  match xSignature with
  | some headerBytes =>
    match utf8Decode headerBytes with
    | none => .error (AnyhowError.mk "Failed to parse signature header" "invalid utf-8 sequence")
    | some signatureStr =>
      let msg :=
        match recover_address_from_signature bodyBytes signatureStr with
        | .ok addr => "Signed by address: " ++ addrHexStr addr
        | .error e => "Failed to recover address from signature: " ++ anyhowDebugStr e
      .ok (HttpResponse.mk "text/plain" msg)
  | none => .ok (HttpResponse.mk "text/plain" "Missing X-Signature header")

/-! ### Claim-side byte-level preimage

The claims describe the hash preimage directly as a byte sequence: the
ASCII prefix bytes of `"\x19Ethereum Signed Message:\n"`, the ASCII decimal
digits of the payload length, and the ASCII debug rendering of the bytes.
These definitions follow that wording; the bridging lemmas below prove that
the server's `format!`-based construction produces exactly these bytes. -/

/-- The ASCII bytes of `"\x19Ethereum Signed Message:\n"` (26 bytes). -/
def personalHeaderBytes : List Nat :=
  [0x19, 69, 116, 104, 101, 114, 101, 117, 109, 32, 83, 105, 103, 110, 101, 100,
   32, 77, 101, 115, 115, 97, 103, 101, 58, 10]

/-- ASCII decimal digit bytes of a natural number. -/
def decimalBytes (n : Nat) : List Nat :=
  (natDecDigits n).map (fun d => 48 + d)

/-- Byte-level interior of the `&[u8]` debug rendering. -/
def sliceDebugBytesGo : List Nat → List Nat
  | [] => []
  | [b] => decimalBytes b
  | b :: rest => decimalBytes b ++ [44, 32] ++ sliceDebugBytesGo rest

/-- Byte-level `&[u8]` debug rendering: `[91]` is `'['`, `[93]` is `']'`. -/
def sliceDebugBytes (msg : List Nat) : List Nat :=
  [91] ++ sliceDebugBytesGo msg ++ [93]

/-- The byte-level preimage as the claims state it: prefix bytes, then the
decimal digits of the payload length, then the debug rendering of the
bytes — not the raw payload bytes. -/
def personalSignPreimage (msg : List Nat) : List Nat :=
  personalHeaderBytes ++ decimalBytes msg.length ++ sliceDebugBytes msg

/-- The anyhow context message of a verifier result, when it is an error. -/
def resultErrorContext (r : Except AnyhowError (List Nat)) : Option String :=
  match r with
  | .error e => some e.context
  | .ok _ => none

/-- Erase the message text of an `AnyhowError`.  The modelled
`anyhow::Error` consists of nothing but message text, so erasure leaves no
information at all — in particular no stage tag. -/
def eraseMessageText (_e : AnyhowError) : AnyhowError :=
  AnyhowError.mk "" ""

/-- A well-formed 65-byte hex signature whose `r` component is zero:
64 + 63 zero digits, then `1`, then `v = 0x1b = 27`.  It parses, and
recovery rejects it (`r` out of range). -/
def zeroRSigStr : String :=
  "000000000000000000000000000000000000000000000000000000000000000000000000000000000000000000000000000000000000000000000000000000011b"

/-! ### Bridging lemmas: the `format!` string renders to the claimed bytes -/

theorem strUtf8_append (s t : String) : strUtf8 (s ++ t) = strUtf8 s ++ strUtf8 t := by
  cases s with
  | mk a =>
    cases t with
    | mk b =>
      show ((a ++ b).map charUtf8).flatten = (a.map charUtf8).flatten ++ (b.map charUtf8).flatten
      simp

theorem natDecDigitsAux_lt (fuel : Nat) : ∀ n d, d ∈ natDecDigitsAux fuel n → d < 10 := by
  induction fuel with
  | zero => intro n d hd; simp [natDecDigitsAux] at hd
  | succ f ih =>
    intro n d hd
    simp only [natDecDigitsAux] at hd
    by_cases h : n < 10
    · simp [h] at hd; omega
    · simp [h] at hd
      rcases hd with hd | hd
      · exact ih _ _ hd
      · omega

theorem natDecDigitsAux_ne_nil (fuel n : Nat) : natDecDigitsAux (fuel + 1) n ≠ [] := by
  simp only [natDecDigitsAux]
  by_cases h : n < 10 <;> simp [h]

theorem decimalBytes_length_pos (n : Nat) : 1 ≤ (decimalBytes n).length := by
  have h := natDecDigitsAux_ne_nil n n
  simp only [decimalBytes, natDecDigits, List.length_map]
  exact List.length_pos.mpr h

theorem charUtf8_digitChar (d : Nat) (hd : d < 10) : charUtf8 (digitChar d) = [48 + d] := by
  interval_cases d <;> decide

theorem flatten_map_singleton {α β : Type} (f : α → List β) (g : α → β) (l : List α)
    (h : ∀ a ∈ l, f a = [g a]) : (l.map f).flatten = l.map g := by
  induction l with
  | nil => rfl
  | cons a l ih =>
    simp only [List.map_cons, List.flatten_cons, h a (by simp)]
    rw [ih (fun x hx => h x (by simp [hx]))]
    rfl

theorem strUtf8_natDecimalRepr (n : Nat) : strUtf8 (natDecimalRepr n) = decimalBytes n := by
  show (((natDecDigits n).map digitChar).map charUtf8).flatten = decimalBytes n
  rw [List.map_map]
  exact flatten_map_singleton _ _ _
    (fun d hd => charUtf8_digitChar d (natDecDigitsAux_lt _ _ _ hd))

theorem strUtf8_sliceDebugGo (msg : List Nat) :
    strUtf8 (sliceDebugGo msg) = sliceDebugBytesGo msg := by
  induction msg with
  | nil => rfl
  | cons b rest ih =>
    cases rest with
    | nil => simp [sliceDebugGo, sliceDebugBytesGo, strUtf8_natDecimalRepr]
    | cons c rest2 =>
      have hsep : strUtf8 ", " = [44, 32] := rfl
      simp only [sliceDebugGo, sliceDebugBytesGo, strUtf8_append, hsep,
        strUtf8_natDecimalRepr, ih, List.append_assoc]

theorem strUtf8_sliceDebug (msg : List Nat) :
    strUtf8 (sliceDebug msg) = sliceDebugBytes msg := by
  have h1 : strUtf8 "[" = [91] := rfl
  have h2 : strUtf8 "]" = [93] := rfl
  simp only [sliceDebug, sliceDebugBytes, strUtf8_append, h1, h2, strUtf8_sliceDebugGo]

theorem strUtf8_headerStr :
    strUtf8 "\x19Ethereum Signed Message:\n" = personalHeaderBytes := by decide

theorem strUtf8_preimageString (msg : List Nat) :
    strUtf8 (preimageString msg) = personalSignPreimage msg := by
  simp only [preimageString, personalSignPreimage, strUtf8_append, strUtf8_headerStr,
    strUtf8_natDecimalRepr, strUtf8_sliceDebug]

theorem sliceDebugBytesGo_length (msg : List Nat) :
    msg.length ≤ (sliceDebugBytesGo msg).length := by
  induction msg with
  | nil => simp [sliceDebugBytesGo]
  | cons b rest ih =>
    cases rest with
    | nil =>
      simpa [sliceDebugBytesGo] using decimalBytes_length_pos b
    | cons c rest2 =>
      have hb := decimalBytes_length_pos b
      simp only [sliceDebugBytesGo, List.length_append, List.length_cons] at *
      omega

theorem sliceDebugBytes_length (msg : List Nat) :
    msg.length < (sliceDebugBytes msg).length := by
  have h := sliceDebugBytesGo_length msg
  simp only [sliceDebugBytes, List.length_append, List.length_cons, List.length_nil]
  omega

theorem keccakDigest_length (st : List Nat) : (keccakDigest st).length = 32 := rfl

theorem signingHash_length (msg : List Nat) : (signingHash msg).length = 32 :=
  keccakDigest_length _

/-! ### Claim theorems -/

/-- C1 (amended: the ASCII prefix `"\x19Ethereum Signed Message:\n"` is 26
bytes, not 25): for every payload, the signing hash computed by
`recover_address_from_signature` equals Keccak-256 of the preimage formed
by the ASCII prefix, then the decimal digits of the payload length, then
the debug rendering of the byte sequence — not the raw payload bytes —
and the digest is 32 bytes long. -/
theorem signing_hash_matches_debug_preimage (msg : List Nat) :
    signingHash msg = keccak256 (personalSignPreimage msg)
    ∧ (signingHash msg).length = 32
    ∧ personalHeaderBytes.length = 26
    ∧ personalSignPreimage msg ≠ personalHeaderBytes ++ decimalBytes msg.length ++ msg := by
  refine ⟨congrArg keccak256 (strUtf8_preimageString msg), keccakDigest_length _, by decide, ?_⟩
  intro hEq
  have h1 := congrArg List.length hEq
  have h2 := sliceDebugBytes_length msg
  simp only [personalSignPreimage, List.length_append] at h1
  omega

/-- C1 counterexample: the claim calls the prefix
`"\x19Ethereum Signed Message:\n"` a 25-byte prefix; its UTF-8/ASCII form
has 26 bytes, as the concrete preimage of the payload `[104]` shows. -/
theorem eth_header_is_26_bytes_not_25 :
    (strUtf8 "\x19Ethereum Signed Message:\n").length = 26
    ∧ ((strUtf8 "\x19Ethereum Signed Message:\n").length = 25 → False)
    ∧ (strUtf8 (preimageString [104])).take 26 = personalHeaderBytes := by
  decide

/-- C2: the verifier returns either the recovered address or the first
failure, tagged with its stage via the anyhow context message: the
parse-stage tag appears exactly when `Signature::from_str` fails, the
recovery-stage tag exactly when parsing succeeded and recovery failed,
and success exactly when both stages succeed.  The parse-stage tag is
independent of the recovery outcome, so a parse failure is reported
before recovery is attempted. -/
theorem verifier_error_stage_exactly (msg : List Nat) (s : String) :
    (resultErrorContext (recover_address_from_signature msg s) = some "Failed to parse signature"
      ↔ ∃ e, sigFromStr s = .error e)
    ∧ (resultErrorContext (recover_address_from_signature msg s) = some "Failed to recover address"
      ↔ ∃ sig e, sigFromStr s = .ok sig ∧ sigRecover sig (signingHash msg) = .error e)
    ∧ (∀ a, recover_address_from_signature msg s = .ok a
      ↔ ∃ sig, sigFromStr s = .ok sig ∧ sigRecover sig (signingHash msg) = .ok a) := by
  have hne : ("Failed to parse signature" = "Failed to recover address") = False := by
    simp only [eq_iff_iff, iff_false]
    decide
  rcases h : sigFromStr s with e | sig
  · refine ⟨?_, ?_, ?_⟩ <;>
      simp [recover_address_from_signature, resultErrorContext, h, hne]
  · rcases h2 : sigRecover sig (signingHash msg) with e2 | addr
    · refine ⟨?_, ?_, ?_⟩ <;>
        simp [recover_address_from_signature, resultErrorContext, h, h2, hne, eq_comm]
    · refine ⟨?_, ?_, ?_⟩ <;>
        simp [recover_address_from_signature, resultErrorContext, h, h2, eq_comm]

/-- C3: whenever the signature string fails to parse — in particular for
the empty string, non-hex text, and hex of the wrong byte length — the
verifier returns the parse-stage (`MalformedSignature`) error value.  The
embedding is a total function, so no input can crash it. -/
theorem malformed_signature_rejected :
    (∀ (msg : List Nat) (s : String) (e : String), sigFromStr s = .error e →
      recover_address_from_signature msg s =
        .error (AnyhowError.mk "Failed to parse signature" e))
    ∧ (∃ e, sigFromStr "" = .error e)
    ∧ (∃ e, sigFromStr "zz" = .error e)
    ∧ (∃ e, sigFromStr "00ff" = .error e) := by
  refine ⟨?_, ⟨_, rfl⟩, ⟨_, rfl⟩, ⟨_, rfl⟩⟩
  intro msg s e h
  simp [recover_address_from_signature, h]

/-- C3 witness: the empty signature string parses to an error and the
verifier reports it with the parse-stage context. -/
theorem malformed_signature_rejected_witness :
    sigFromStr "" = .error "invalid signature length, got 0, expected 65 bytes"
    ∧ recover_address_from_signature [] "" =
        .error (AnyhowError.mk "Failed to parse signature"
          "invalid signature length, got 0, expected 65 bytes") := by
  have h : sigFromStr "" = .error "invalid signature length, got 0, expected 65 bytes" := rfl
  exact ⟨h, malformed_signature_rejected.1 [] "" _ h⟩

/-- C6: determinism.  The verifier is embedded as a pure function of the
payload and the signature string alone (the Rust function reads no other
state), so two calls on the same inputs yield the same result. -/
theorem verifier_deterministic (payload : List Nat) (signatureStr : String) :
    recover_address_from_signature payload signatureStr =
      recover_address_from_signature payload signatureStr := rfl

/-- C7: hash totality.  The signing-hash construction is a total function
on byte sequences of every length (the empty payload included) and always
produces a 32-byte digest. -/
theorem signing_hash_total_32_bytes :
    (∀ msg : List Nat, (signingHash msg).length = 32)
    ∧ (signingHash []).length = 32 :=
  ⟨signingHash_length, signingHash_length []⟩

set_option maxRecDepth 16384 in
/-- C8 counterexample: the code does not represent the two error kinds as
a tagged variant.  Both stages produce values of the single untagged
`AnyhowError` shape (the model of `anyhow::Error` with `.context`), and
after erasing the message text a parse-stage error and a recovery-stage
error are indistinguishable — the stage lives only in the message text,
refuting "distinguishable in the returned error value's type, not only in
its message text". -/
theorem error_kinds_share_untagged_type :
    recover_address_from_signature [] "" =
      .error (AnyhowError.mk "Failed to parse signature"
        "invalid signature length, got 0, expected 65 bytes")
    ∧ recover_address_from_signature [104] zeroRSigStr =
      .error (AnyhowError.mk "Failed to recover address" "signature error")
    ∧ eraseMessageText (AnyhowError.mk "Failed to parse signature"
        "invalid signature length, got 0, expected 65 bytes")
      = eraseMessageText (AnyhowError.mk "Failed to recover address" "signature error") :=
  ⟨rfl, rfl, rfl⟩

/-- C8 (amended): the two error kinds are represented as a generic
context-wrapped error — a single error shape carrying the stage as a
context message string plus the rendered underlying cause — so
`MalformedSignature` versus `RecoveryFailure` is distinguishable only by
that message text: every error carries one of the two context strings,
and the parse-stage string appears exactly on parse failures. -/
theorem error_stage_only_in_context_message (msg : List Nat) (s : String) (e : AnyhowError)
    (h : recover_address_from_signature msg s = .error e) :
    (e.context = "Failed to parse signature" ∨ e.context = "Failed to recover address")
    ∧ (e.context = "Failed to parse signature" ↔ ∃ c, sigFromStr s = .error c) := by
  rcases hp : sigFromStr s with c | sig
  · simp only [recover_address_from_signature, hp, Except.error.injEq] at h
    subst h
    simp [hp]
  · rcases hr : sigRecover sig (signingHash msg) with c2 | addr
    · simp only [recover_address_from_signature, hp, hr, Except.error.injEq] at h
      subst h
      have hne : (("Failed to recover address" : String) = "Failed to parse signature") = False := by
        simp only [eq_iff_iff, iff_false]
        decide
      simp [hp, hne]
    · simp [recover_address_from_signature, hp, hr] at h

/-- C8 witness: the amended statement instantiated at the empty payload
and the empty signature string, whose error is the parse-stage value. -/
theorem error_stage_only_in_context_message_witness :
    ((AnyhowError.mk "Failed to parse signature"
        "invalid signature length, got 0, expected 65 bytes").context
      = "Failed to parse signature"
      ∨ (AnyhowError.mk "Failed to parse signature"
          "invalid signature length, got 0, expected 65 bytes").context
        = "Failed to recover address")
    ∧ ((AnyhowError.mk "Failed to parse signature"
          "invalid signature length, got 0, expected 65 bytes").context
        = "Failed to parse signature"
      ↔ ∃ c, sigFromStr "" = .error c) :=
  error_stage_only_in_context_message [] ""
    (AnyhowError.mk "Failed to parse signature"
      "invalid signature length, got 0, expected 65 bytes") rfl

/-- C9 (amended: the prefix is 26 bytes, not 25): the decimal number
written into the preimage is the raw byte count `L`, while the appended
debug rendering is strictly longer than `L` bytes for every payload
(`"[]"` has 2 > 0 bytes for the empty payload), so the declared length
never matches the length of the appended content; for the empty payload
the preimage is the 26-byte prefix, then `"0"`, then `"[]"`. -/
theorem declared_length_vs_debug_rendering :
    strUtf8 (preimageString []) = personalHeaderBytes ++ [48] ++ [91, 93]
    ∧ (∀ msg : List Nat, msg.length < (sliceDebugBytes msg).length)
    ∧ (∀ msg : List Nat, strUtf8 (preimageString msg) =
        personalHeaderBytes ++ decimalBytes msg.length ++ sliceDebugBytes msg) :=
  ⟨by decide, sliceDebugBytes_length, strUtf8_preimageString⟩

/-- C9 counterexample: with a 25-byte prefix the empty payload's preimage
would have 25 + 1 + 2 = 28 bytes; it actually has 29. -/
theorem empty_payload_preimage_length_29 :
    (strUtf8 (preimageString [])).length = 29
    ∧ ((strUtf8 (preimageString [])).length = 28 → False) := by
  decide

/-- C10: an absent `X-Signature` header produces a successful plain-text
response with body `"Missing X-Signature header"` for every request body
(the verifier is never consulted: the result does not depend on the
body), whereas a present header with non-UTF-8 bytes makes
`handle_request` return an error — no response at all — so the two
malformed-header conditions are handled asymmetrically. -/
theorem handler_header_asymmetry :
    (∀ bodyBytes : List Nat,
      handle_request none bodyBytes =
        .ok (HttpResponse.mk "text/plain" "Missing X-Signature header"))
    ∧ (∀ (headerBytes bodyBytes : List Nat), utf8Decode headerBytes = none →
      handle_request (some headerBytes) bodyBytes =
        .error (AnyhowError.mk "Failed to parse signature header" "invalid utf-8 sequence")) := by
  refine ⟨fun _ => rfl, fun hb bb h => ?_⟩
  simp [handle_request, h]

/-- C10 witness: the header byte `0xFF` is not valid UTF-8; the handler
fails on it while the absent-header case answers successfully. -/
theorem handler_header_asymmetry_witness :
    utf8Decode [255] = none
    ∧ handle_request (some [255]) [104] =
        .error (AnyhowError.mk "Failed to parse signature header" "invalid utf-8 sequence")
    ∧ handle_request none [104] =
        .ok (HttpResponse.mk "text/plain" "Missing X-Signature header") :=
  ⟨rfl, handler_header_asymmetry.2 [255] [104] rfl, handler_header_asymmetry.1 [104]⟩
